import Mathlib

/-!
Verification of the asynchronous task-completion protocol of the
ai-product-visualizer repository: the wait loops, direct-poll channels,
downloaders and result-shape normalization of `KieGenerator`
(src/kie_generator.py), `Sora2VideoCreator` (src/sora2_video_creator.py)
and `Veo3VideoCreator` (src/veo_video_creator.py).

The Python code is shallowly embedded: JSON values are an inductive type,
`dict.get` / subscripting / truthiness follow Python semantics, `json.loads`
is an oracle parameter `loads : String → Option JVal` (`none` models a
`JSONDecodeError`), raised exceptions are `Except` errors, and each wait
loop is a recursion over a trace of per-iteration environment observations
(the clock reading and what each network channel would deliver).
-/

/-- Model of a Python/JSON value as manipulated by the clients. -/
inductive JVal where
  | null
  | bool (b : Bool)
  | num (n : Int)
  | str (s : String)
  | arr (xs : List JVal)
  | obj (fields : List (String × JVal))

/-- Python truthiness (`if x:`) of a JSON value: None, False, 0, empty
string/list/dict are falsy. -/
def JVal.truthy : JVal → Bool
  | JVal.null => false
  | JVal.bool b => b
  | JVal.num n => n != 0
  | JVal.str s => s ≠ ""
  | JVal.arr xs => !xs.isEmpty
  | JVal.obj fs => !fs.isEmpty

/-- Python `x == s` for a string literal `s`: true only when `x` is that string. -/
def JVal.eqStr : JVal → String → Bool
  | JVal.str t, s => t == s
  | _, _ => false

/-- Python `x == n` for an integer literal `n`: true only when `x` is that number. -/
def JVal.eqNum : JVal → Int → Bool
  | JVal.num m, n => m == n
  | _, _ => false

/-- Python `str(x)`. Only the string case matters for the properties below;
the rendering of compound values is not modelled precisely. -/
def JVal.toPyStr : JVal → String
  | JVal.str s => s
  | JVal.null => "None"
  | JVal.bool true => "True"
  | JVal.bool false => "False"
  | JVal.num n => toString n
  | _ => "<object>"

/-- A raised Python exception: `json.JSONDecodeError` (caught separately by the
webhook-processing handlers) or a generic `Exception` with its message. -/
inductive PyExn where
  | jsonDecodeError
  | exn (msg : String)

/-- Python `d.get(k, default)`: raises (an `AttributeError`) when the receiver
is not a dict. -/
def pyGetD (j : JVal) (k : String) (d : JVal) : Except PyExn JVal :=
  match j with
  | JVal.obj fs => Except.ok ((List.lookup k fs).getD d)
  | _ => Except.error (PyExn.exn "AttributeError")

/-- Python `d[k]` subscripting: `KeyError` when the key is missing,
`TypeError` when the receiver is not a dict. -/
def pySub (j : JVal) (k : String) : Except PyExn JVal :=
  match j with
  | JVal.obj fs =>
    match List.lookup k fs with
    | some v => Except.ok v
    | none => Except.error (PyExn.exn "KeyError")
  | _ => Except.error (PyExn.exn "TypeError")

/-- Python `x[0]` on the result-URL value: first element of a list
(`IndexError` when empty), first character of a string, `TypeError` otherwise. -/
def pyIndex0 : JVal → Except PyExn JVal
  | JVal.arr (x :: _) => Except.ok x
  | JVal.arr [] => Except.error (PyExn.exn "IndexError")
  | JVal.str s =>
    match s.data with
    | c :: _ => Except.ok (JVal.str (String.mk [c]))
    | [] => Except.error (PyExn.exn "IndexError")
  | _ => Except.error (PyExn.exn "TypeError")

/-- The Python text `"{}"`, the default used for absent `content` /
`resultJson` fields before `json.loads`. -/
def jsonEmptyObj : String := "\x7b\x7d"

/-- The code's `if isinstance(x, str): x = json.loads(x)` idiom: a string is
parsed with the `loads` oracle (`none` models a raised `JSONDecodeError`),
any other value is used as is. -/
def pyLoadsIfStr (loads : String → Option JVal) : JVal → Except PyExn JVal
  | JVal.str s =>
    match loads s with
    | some j => Except.ok j
    | none => Except.error PyExn.jsonDecodeError
  | j => Except.ok j

/-- Whether the first list is a prefix of the second. -/
def charsPrefixOf : List Char → List Char → Bool
  | [], _ => true
  | _ :: _, [] => false
  | a :: as, b :: bs => a == b && charsPrefixOf as bs

/-- Whether `needle` occurs as a contiguous run inside `hay`. -/
def charsContain (hay needle : List Char) : Bool :=
  charsPrefixOf needle hay ||
    match hay with
    | [] => false
    | _ :: t => charsContain t needle

/-- Python `needle in hay` on strings. -/
def containsSub (hay needle : String) : Bool :=
  charsContain hay.data needle.data

/-- Python `s.lower()` (ASCII case folding suffices for the substrings the
code inspects). -/
def pyLower (s : String) : String :=
  String.mk (s.data.map Char.toLower)

/-- Outcome of one full run of a wait loop over a finite observation trace.
`timeout` records the wall-clock reading at the moment the `TimeoutError`
is raised together with its message; `outOfTrace` means the trace ended with
the loop still iterating. -/
inductive WaitOutcome where
  | success (payload : JVal)
  | failure (msg : String)
  | timeout (elapsedAt : Nat) (msg : String)
  | outOfTrace

/-- One iteration's environment for the Kie and Sora2 wait loops: the clock
reading `elapsed` at the top of the iteration, the list of raw webhook
requests the relay would return (their `get_webhook_requests` returns `[]`
on any fetch failure, so a failed fetch is indistinguishable from an empty
inbox), and the outcome of `query_task` if it were called
(`Except.error ()` models a raised request exception). -/
structure IterObs where
  elapsed : Nat
  reqs : List JVal
  query : Except Unit JVal

/-! ## KieGenerator.wait_for_task (src/kie_generator.py lines 353-445) -/

/-- Body of the per-request `try` block in `KieGenerator.wait_for_task`
(lines 394-411): parse the webhook request's `content`, and if it belongs to
this task inspect its `state`; `success` returns the payload,
`fail` raises `Exception("Task failed: ...")`.  `Except.ok (some p)` models
the `return`, `Except.ok none` falling through to the next request. -/
def kieProcessReq (taskId : String) (loads : String → Option JVal) (req : JVal) :
    Except PyExn (Option JVal) := do
  let content ← pyGetD req "content" (JVal.str jsonEmptyObj)
  let callbackData ← pyLoadsIfStr loads content
  let d ← pyGetD callbackData "data" (JVal.obj [])
  let tid ← pyGetD d "taskId" JVal.null
  if tid.eqStr taskId then
    let st ← pyGetD d "state" JVal.null
    if st.eqStr "success" then
      Except.ok (some callbackData)
    else if st.eqStr "fail" then
      let fm ← pyGetD d "failMsg" (JVal.str "Unknown error")
      Except.error (PyExn.exn ("Task failed: " ++ fm.toPyStr))
    else Except.ok none
  else Except.ok none

/-- The `for req in requests_list` loop of `KieGenerator.wait_for_task` with
its two handlers (lines 393-417): `except json.JSONDecodeError: continue` and
`except Exception: continue`.  Every raised exception - including the
`Task failed` one - is swallowed and the scan moves on; only a `success`
payload for this task escapes. -/
def kieScanWebhook (taskId : String) (loads : String → Option JVal) :
    List JVal → Option JVal
  | [] => none
  | req :: rest =>
    match kieProcessReq taskId loads req with
    | Except.ok (some payload) => some payload
    | Except.ok none => kieScanWebhook taskId loads rest
    | Except.error _ => kieScanWebhook taskId loads rest

/-- Body of the direct-poll `try` block of `KieGenerator.wait_for_task`
(lines 422-438): `query_task` may raise (modelled by `query = Except.error ()`),
a `code = 200` response with `state = success` returns the result, a
`state = fail` raises `Exception("Task failed: ...")`, anything else falls
through. -/
def kiePollBody (query : Except Unit JVal) : Except PyExn (Option JVal) := do
  let result ← match query with
    | Except.ok r => Except.ok r
    | Except.error _ => Except.error (PyExn.exn "RequestException")
  let code ← pyGetD result "code" JVal.null
  if code.eqNum 200 then
    let data ← pyGetD result "data" (JVal.obj [])
    let st ← pyGetD data "state" JVal.null
    if st.eqStr "success" then
      Except.ok (some result)
    else if st.eqStr "fail" then
      let fm ← pyGetD data "failMsg" (JVal.str "Unknown error")
      Except.error (PyExn.exn ("Task failed: " ++ fm.toPyStr))
    else Except.ok none
  else Except.ok none

/-- The direct-poll step with its `except Exception` handler (lines 439-441),
which prints and continues: every raised exception is swallowed. -/
def kiePollStep (query : Except Unit JVal) : Option JVal :=
  match kiePollBody query with
  | Except.ok o => o
  | Except.error _ => none

/-- The message of the `TimeoutError` raised by `KieGenerator.wait_for_task`
(line 387): `f"Task {task_id} timed out after {max_wait_time}s"`. -/
def kieTimeoutMsg (taskId : String) (maxWait : Nat) : String :=
  "Task " ++ (taskId ++ (" timed out after " ++ (toString maxWait ++ "s")))

/-- The `while True` loop of `KieGenerator.wait_for_task` (lines 381-445) over
a finite observation trace, threading `poll_attempt`.  Each iteration checks
the timeout, scans the webhook (when one exists), then every third attempt
runs the swallowing direct-poll step. -/
def kieWaitAux (taskId : String) (hasWebhook : Bool) (maxWait : Nat)
    (loads : String → Option JVal) : Nat → List IterObs → WaitOutcome
  | _, [] => WaitOutcome.outOfTrace
  | pollAttempt, obs :: rest =>
    if maxWait < obs.elapsed then
      WaitOutcome.timeout obs.elapsed (kieTimeoutMsg taskId maxWait)
    else
      match (if hasWebhook then kieScanWebhook taskId loads obs.reqs else none) with
      | some payload => WaitOutcome.success payload
      | none =>
        if (pollAttempt + 1) % 3 = 0 then
          match kiePollStep obs.query with
          | some payload => WaitOutcome.success payload
          | none => kieWaitAux taskId hasWebhook maxWait loads (pollAttempt + 1) rest
        else kieWaitAux taskId hasWebhook maxWait loads (pollAttempt + 1) rest

/-- `KieGenerator.wait_for_task`, started with `poll_attempt = 0` (line 379). -/
def kieWaitForTask (taskId : String) (hasWebhook : Bool) (maxWait : Nat)
    (loads : String → Option JVal) (trace : List IterObs) : WaitOutcome :=
  kieWaitAux taskId hasWebhook maxWait loads 0 trace

/-! ## Sora2VideoCreator.wait_for_video (src/sora2_video_creator.py lines 218-345) -/

/-- The message raised by `Sora2VideoCreator.wait_for_video` when the vendor
failure message mentions photorealistic people (lines 282-285). -/
def sora2PhotoMsg : String :=
  "Sora 2 Error: Image contains photorealistic people. " ++
    "Try using Veo3 instead, or use images without people."

/-- Body of the per-request `try` block in `Sora2VideoCreator.wait_for_video`
(lines 256-288).  Unlike Kie, a `fail` payload whose `failMsg` contains
`'photorealistic people'` raises the dedicated message; any other `fail`
raises `Exception("Task failed: ...")`; a non-string `failMsg` makes
`fail_msg.lower()` raise an `AttributeError`. -/
def sora2ProcessReq (taskId : String) (loads : String → Option JVal) (req : JVal) :
    Except PyExn (Option JVal) := do
  let content ← pyGetD req "content" (JVal.str jsonEmptyObj)
  let callbackData ← pyLoadsIfStr loads content
  let d ← pyGetD callbackData "data" (JVal.obj [])
  let tid ← pyGetD d "taskId" JVal.null
  if tid.eqStr taskId then
    let st ← pyGetD d "state" JVal.null
    if st.eqStr "success" then
      Except.ok (some callbackData)
    else if st.eqStr "fail" then
      let fm ← pyGetD d "failMsg" (JVal.str "Unknown error")
      match fm with
      | JVal.str m =>
        if containsSub (pyLower m) "photorealistic people" then
          Except.error (PyExn.exn sora2PhotoMsg)
        else
          Except.error (PyExn.exn ("Task failed: " ++ m))
      | _ => Except.error (PyExn.exn "AttributeError")
    else Except.ok none
  else Except.ok none

/-- The `for req in requests_list` loop of `Sora2VideoCreator.wait_for_video`
with its handlers (lines 255-299): `json.JSONDecodeError` skips the request;
a generic exception is re-raised only when its message contains
`'photorealistic people'` (lines 294-296), otherwise it too is swallowed. -/
def sora2ScanWebhook (taskId : String) (loads : String → Option JVal) :
    List JVal → Except String (Option JVal)
  | [] => Except.ok none
  | req :: rest =>
    match sora2ProcessReq taskId loads req with
    | Except.ok (some payload) => Except.ok (some payload)
    | Except.ok none => sora2ScanWebhook taskId loads rest
    | Except.error PyExn.jsonDecodeError => sora2ScanWebhook taskId loads rest
    | Except.error (PyExn.exn m) =>
      if containsSub (pyLower m) "photorealistic people" then Except.error m
      else sora2ScanWebhook taskId loads rest

/-- Body of the direct-poll `try` block of `Sora2VideoCreator.wait_for_video`
(lines 302-313): `query_task` raises when every endpoint fails (modelled by
`query = Except.error ()`); note the `result["data"]` subscript. -/
def sora2PollBody (query : Except Unit JVal) : Except PyExn (Option JVal) := do
  let result ← match query with
    | Except.ok r => Except.ok r
    | Except.error _ => Except.error (PyExn.exn "RequestException")
  let code ← pyGetD result "code" JVal.null
  if code.eqNum 200 then
    let data ← pySub result "data"
    let st ← pyGetD data "state" JVal.null
    if st.eqStr "success" then
      Except.ok (some result)
    else if st.eqStr "fail" then
      let fm ← pyGetD data "failMsg" (JVal.str "Unknown error")
      Except.error (PyExn.exn ("Task failed: " ++ fm.toPyStr))
    else Except.ok none
  else Except.ok none

/-- The direct-poll step with its `except Exception: pass` handler
(lines 314-316): every raised exception is swallowed. -/
def sora2PollStep (query : Except Unit JVal) : Option JVal :=
  match sora2PollBody query with
  | Except.ok o => o
  | Except.error _ => none

/-- The message of the `TimeoutError` raised by `Sora2VideoCreator.wait_for_video`
(line 249): `f"Task {task_id} timed out after {max_wait_time}s"`. -/
def sora2TimeoutMsg (taskId : String) (maxWait : Nat) : String :=
  "Task " ++ (taskId ++ (" timed out after " ++ (toString maxWait ++ "s")))

/-- The `while True` loop of `Sora2VideoCreator.wait_for_video` (lines 245-345)
over a finite observation trace: timeout check, webhook scan (when a webhook
exists), then an unconditional swallowing direct poll every iteration. -/
def sora2WaitAux (taskId : String) (hasWebhook : Bool) (maxWait : Nat)
    (loads : String → Option JVal) : List IterObs → WaitOutcome
  | [] => WaitOutcome.outOfTrace
  | obs :: rest =>
    if maxWait < obs.elapsed then
      WaitOutcome.timeout obs.elapsed (sora2TimeoutMsg taskId maxWait)
    else
      match (if hasWebhook then sora2ScanWebhook taskId loads obs.reqs
             else Except.ok none) with
      | Except.error msg => WaitOutcome.failure msg
      | Except.ok (some payload) => WaitOutcome.success payload
      | Except.ok none =>
        match sora2PollStep obs.query with
        | some payload => WaitOutcome.success payload
        | none => sora2WaitAux taskId hasWebhook maxWait loads rest

/-- `Sora2VideoCreator.wait_for_video`. -/
def sora2WaitForVideo (taskId : String) (hasWebhook : Bool) (maxWait : Nat)
    (loads : String → Option JVal) (trace : List IterObs) : WaitOutcome :=
  sora2WaitAux taskId hasWebhook maxWait loads trace

/-! ## Veo3VideoCreator.wait_for_video (src/veo_video_creator.py lines 238-383) -/

/-- What the webhook relay produces for one call of
`Veo3VideoCreator.get_webhook_requests` (lines 57-86): a network failure on
every retry, or a 2xx body whose `data` field is JSON null, or a 2xx body
whose `data` field is a list of raw requests (an absent `data` field behaves
like the empty list and is covered by `dataList []`). -/
inductive VeoFetch where
  | fetchError
  | dataNull
  | dataList (reqs : List JVal)

/-- `Veo3VideoCreator.get_webhook_requests`: returns `data.get('data', [])` on
success and `[]` after exhausting retries on failure (line 84), so a fetch
failure is returned as an empty list; only a JSON-null `data` field yields
Python `None` (modelled by `none`). -/
def veo3GetWebhookRequests : VeoFetch → Option (List JVal)
  | VeoFetch.fetchError => some []
  | VeoFetch.dataNull => none
  | VeoFetch.dataList reqs => some reqs

/-- One iteration's environment for the Veo3 wait loop: the clock reading,
the relay fetch outcome, and what `query_task` would return if called
(`none` models Veo3's `query_task` returning `None` after all endpoints
fail). -/
structure VeoIterObs where
  elapsed : Nat
  fetch : VeoFetch
  query : Option JVal

/-- Body of the per-request `try` block in `Veo3VideoCreator.wait_for_video`
(lines 294-312): like Kie's, with the raise message
`Video generation failed: ...`. -/
def veo3ProcessReq (taskId : String) (loads : String → Option JVal) (req : JVal) :
    Except PyExn (Option JVal) := do
  let content ← pyGetD req "content" (JVal.str jsonEmptyObj)
  let callbackData ← pyLoadsIfStr loads content
  let d ← pyGetD callbackData "data" (JVal.obj [])
  let tid ← pyGetD d "taskId" JVal.null
  if tid.eqStr taskId then
    let st ← pyGetD d "state" JVal.null
    if st.eqStr "success" then
      Except.ok (some callbackData)
    else if st.eqStr "fail" then
      let fm ← pyGetD d "failMsg" (JVal.str "Unknown error")
      Except.error (PyExn.exn ("Video generation failed: " ++ fm.toPyStr))
    else Except.ok none
  else Except.ok none

/-- The `for req in requests_list` loop of `Veo3VideoCreator.wait_for_video`
with its handlers (lines 293-319): as in Kie, both `except` clauses
`continue`, so every raised exception (including the `fail` one) is
swallowed. -/
def veo3ScanWebhook (taskId : String) (loads : String → Option JVal) :
    List JVal → Option JVal
  | [] => none
  | req :: rest =>
    match veo3ProcessReq taskId loads req with
    | Except.ok (some payload) => some payload
    | Except.ok none => veo3ScanWebhook taskId loads rest
    | Except.error _ => veo3ScanWebhook taskId loads rest

/-- The webhook phase of one Veo3 iteration (lines 285-323): run only while
`webhook_id` exists and `consecutive_webhook_failures < 2`; the gate
`requests_list is not None and len(requests_list) >= 0` (line 289) accepts
every list (the length test is vacuous, kept as in the source), resets the
failure counter to 0 and scans; only a `None` requests list increments the
counter.  `Except.error` carries a webhook `success` return, `Except.ok` the
updated failure counter. -/
def veo3WebhookPhase (taskId : String) (hasWebhook : Bool)
    (loads : String → Option JVal) (consecFails : Nat) (fetch : VeoFetch) :
    Except WaitOutcome Nat :=
  if hasWebhook && decide (consecFails < 2) then
    match veo3GetWebhookRequests fetch with
    | some rs =>
      if decide (0 ≤ rs.length) then
        match veo3ScanWebhook taskId loads rs with
        | some payload => Except.error (WaitOutcome.success payload)
        | none => Except.ok 0
      else Except.ok (consecFails + 1)
    | none => Except.ok (consecFails + 1)
  else Except.ok consecFails

/-- The direct-query step of `Veo3VideoCreator.wait_for_video`
(lines 336-347).  It runs outside any `try`, so a `fail` state's raise (and
an `AttributeError` from a non-dict response) propagates and terminates the
wait; this is the only fail path of the Veo3 waiter that escapes. -/
def veo3DirectQueryBody (query : Option JVal) : Except PyExn (Option JVal) :=
  match query with
  | none => Except.ok none
  | some result =>
    if result.truthy then do
      let code ← pyGetD result "code" JVal.null
      if code.eqNum 200 then
        let data ← pyGetD result "data" (JVal.obj [])
        let st ← pyGetD data "state" JVal.null
        if st.eqStr "success" then
          Except.ok (some result)
        else if st.eqStr "fail" then
          let fm ← pyGetD data "failMsg" (JVal.str "Unknown error")
          Except.error (PyExn.exn ("Video generation failed: " ++ fm.toPyStr))
        else Except.ok none
      else Except.ok none
    else Except.ok none

/-- The message of a `PyExn` as seen by a caller. -/
def PyExn.message : PyExn → String
  | PyExn.jsonDecodeError => "JSONDecodeError"
  | PyExn.exn m => m

/-- The fixed text preceding the task id in the Veo3 timeout message
(lines 272-281). -/
def veo3TimeoutPre (elapsed : Nat) : String :=
  "⏰ Veo3 timeout after " ++ toString (elapsed / 60) ++ " minutes.\n" ++
    "💡 Veo3 via Kie.ai can be slow and unreliable.\n" ++
    "💡 Recommendations:\n" ++
    "   1. Try using Sora 2 instead (faster and more reliable)\n" ++
    "   2. Sora 2 doesn't support images with photorealistic people\n" ++
    "   3. For product-only images, Sora 2 is recommended\n" ++
    "Task ID: "

/-- The message of the `TimeoutError` raised by
`Veo3VideoCreator.wait_for_video` (lines 272-282), ending in the task id. -/
def veo3TimeoutMsg (taskId : String) (elapsed : Nat) : String :=
  veo3TimeoutPre elapsed ++ taskId

/-- The `while True` loop of `Veo3VideoCreator.wait_for_video`
(lines 268-383) over a finite observation trace, threading
`consecutive_webhook_failures` and `last_direct_query_time` (both start at 0,
lines 259-261).  The second component of the result records the `elapsed`
values of the iterations that issued a direct query
(`should_query_direct`, lines 327-330: only when the failure counter has
reached 2 and at least 120 seconds have passed since the last direct
query). -/
def veo3WaitRun (taskId : String) (hasWebhook : Bool) (maxWait : Nat)
    (loads : String → Option JVal) :
    Nat → Nat → List VeoIterObs → WaitOutcome × List Nat
  | _, _, [] => (WaitOutcome.outOfTrace, [])
  | consecFails, lastQ, obs :: rest =>
    if maxWait < obs.elapsed then
      (WaitOutcome.timeout obs.elapsed (veo3TimeoutMsg taskId obs.elapsed), [])
    else
      match veo3WebhookPhase taskId hasWebhook loads consecFails obs.fetch with
      | Except.error o => (o, [])
      | Except.ok consecFails' =>
        if decide (2 ≤ consecFails') && decide (120 ≤ obs.elapsed - lastQ) then
          match veo3DirectQueryBody obs.query with
          | Except.error e => (WaitOutcome.failure e.message, [obs.elapsed])
          | Except.ok (some payload) => (WaitOutcome.success payload, [obs.elapsed])
          | Except.ok none =>
            let r := veo3WaitRun taskId hasWebhook maxWait loads
              consecFails' obs.elapsed rest
            (r.1, obs.elapsed :: r.2)
        else veo3WaitRun taskId hasWebhook maxWait loads consecFails' lastQ rest

/-- `Veo3VideoCreator.wait_for_video`: the loop's final outcome. -/
def veo3WaitForVideo (taskId : String) (hasWebhook : Bool) (maxWait : Nat)
    (loads : String → Option JVal) (trace : List VeoIterObs) : WaitOutcome :=
  (veo3WaitRun taskId hasWebhook maxWait loads 0 0 trace).1

/-- The elapsed times at which `Veo3VideoCreator.wait_for_video` issues a
direct status query. -/
def veo3QueryTimes (taskId : String) (hasWebhook : Bool) (maxWait : Nat)
    (loads : String → Option JVal) (trace : List VeoIterObs) : List Nat :=
  (veo3WaitRun taskId hasWebhook maxWait loads 0 0 trace).2

/-! ## Downloaders -/

/-- The completeness check of `KieGenerator.download_image`
(src/kie_generator.py lines 475, 489-495): `total_size` is the parsed
`Content-Length` (`0` when the header is absent), `downloaded` the byte count
written.  A missing share below 5 percent
(`missing_pct = (total - downloaded) / total * 100 < 5`, stated exactly as
`(total - downloaded) * 100 < 5 * total`) is accepted; otherwise an
incomplete-download exception is raised. -/
def kieDownloadCheck (totalSize downloaded : Nat) : Except String Unit :=
  if 0 < totalSize ∧ downloaded < totalSize then
    if (totalSize - downloaded) * 100 < 5 * totalSize then Except.ok ()
    else Except.error "Incomplete download"
  else Except.ok ()

/-- The acceptance check of `Sora2VideoCreator.download_video`
(src/sora2_video_creator.py lines 373, 385-390): the declared
`Content-Length` is read only for progress display; the download is accepted
exactly when the saved file is nonempty (`save_path.exists() and
save_path.stat().st_size > 0`, the saved size being the downloaded byte
count). -/
def sora2DownloadCheck (_totalSize downloaded : Nat) : Except String Unit :=
  if 0 < downloaded then Except.ok ()
  else Except.error "File was not saved properly"

/-- The acceptance check of `Veo3VideoCreator.download_video`
(src/veo_video_creator.py lines 411, 423-428), identical to Sora2's. -/
def veo3DownloadCheck (_totalSize downloaded : Nat) : Except String Unit :=
  if 0 < downloaded then Except.ok ()
  else Except.error "File was not saved properly"

/-! ## Direct-poll channel: query_task endpoint candidates -/

/-- HTTP method of a candidate status-query request. -/
inductive HttpMethod where
  | get
  | post

/-- The vendor API base url (`self.base_url`). -/
def kieBaseUrl : String := "https://api.kie.ai/api/v1"

/-- The candidate endpoints of `Sora2VideoCreator.query_task`
(src/sora2_video_creator.py lines 162-216) in attempt order: two GETs with
the task id as a query parameter, then two POSTs whose body is
`{"taskId": task_id}`. -/
def sora2QueryCandidates (taskId : String) : List (HttpMethod × String) :=
  [(HttpMethod.get, kieBaseUrl ++ "/jobs/query?taskId=" ++ taskId),
   (HttpMethod.get, kieBaseUrl ++ "/playground/query?taskId=" ++ taskId),
   (HttpMethod.post, kieBaseUrl ++ "/jobs/query"),
   (HttpMethod.post, kieBaseUrl ++ "/playground/query")]

/-- The candidate endpoints of `Veo3VideoCreator.query_task`
(src/veo_video_creator.py lines 187-233) in attempt order: three GETs, then
two POSTs whose body is `{"taskId": task_id}`. -/
def veo3QueryCandidates (taskId : String) : List (HttpMethod × String) :=
  [(HttpMethod.get, kieBaseUrl ++ "/jobs/query?taskId=" ++ taskId),
   (HttpMethod.get, kieBaseUrl ++ "/playground/query?taskId=" ++ taskId),
   (HttpMethod.get, kieBaseUrl ++ "/veo/query?taskId=" ++ taskId),
   (HttpMethod.post, kieBaseUrl ++ "/jobs/query"),
   (HttpMethod.post, kieBaseUrl ++ "/playground/query")]

/-- Try the candidate endpoints in order against the environment `resp`
(`none` models a `RequestException` for that candidate, `some` a parsed 2xx
response); the first response wins. -/
def tryEndpoints (resp : HttpMethod × String → Option JVal) :
    List (HttpMethod × String) → Option JVal
  | [] => none
  | e :: rest =>
    match resp e with
    | some j => some j
    | none => tryEndpoints resp rest

/-- `Sora2VideoCreator.query_task`: when every candidate fails it raises the
last error (line 216), modelled as `Except.error ()`. -/
def sora2QueryTask (resp : HttpMethod × String → Option JVal) (taskId : String) :
    Except Unit JVal :=
  match tryEndpoints resp (sora2QueryCandidates taskId) with
  | some j => Except.ok j
  | none => Except.error ()

/-- `Veo3VideoCreator.query_task`: when every candidate fails it returns
`None` (line 236). -/
def veo3QueryTask (resp : HttpMethod × String → Option JVal) (taskId : String) :
    Option JVal :=
  tryEndpoints resp (veo3QueryCandidates taskId)

/-! ## Generator facades: result-shape normalization -/

/-- The result parsing of `KieGenerator.generate_image`
(src/kie_generator.py lines 617-638): decode `data.resultJson` (a string is
passed through `json.loads`; absent defaults to the text of an empty JSON
object), take its `resultUrls`; when falsy, fall back to `data.resultUrls`;
when still falsy, raise `No images generated`. -/
def kieParseResultUrls (loads : String → Option JVal) (result : JVal) :
    Except PyExn JVal := do
  let data ← pyGetD result "data" (JVal.obj [])
  let rjs ← pyGetD data "resultJson" (JVal.str jsonEmptyObj)
  let resultJson ← pyLoadsIfStr loads rjs
  let urls1 ← pyGetD resultJson "resultUrls" (JVal.arr [])
  let urls ←
    if urls1.truthy then Except.ok urls1
    else do
      let data2 ← pyGetD result "data" (JVal.obj [])
      pyGetD data2 "resultUrls" (JVal.arr [])
  if urls.truthy then Except.ok urls
  else Except.error (PyExn.exn "No images generated")

/-- The normalized output of `KieGenerator.generate_image` (lines 640-660):
`url` is `result_urls[0]`, `all_urls` the full list, and `downloads` the list
of urls passed to `download_image` (exactly the first). -/
structure KieResult where
  url : JVal
  allUrls : JVal
  downloads : List JVal

/-- Steps 3-4 of `KieGenerator.generate_image`: parse the payload, take the
first url, download only it. -/
def kieGenerateFromPayload (loads : String → Option JVal) (payload : JVal) :
    Except PyExn KieResult := do
  let urls ← kieParseResultUrls loads payload
  let u ← pyIndex0 urls
  Except.ok { url := u, allUrls := urls, downloads := [u] }

/-- The result parsing of `Sora2VideoCreator.create_video_from_image`
(src/sora2_video_creator.py lines 455-478): the same shape handling as Kie
with the message `No video URL in response`, then `video_url =
result_urls[0]` inside the same `try`. -/
def sora2ExtractVideoUrl (loads : String → Option JVal) (result : JVal) :
    Except PyExn JVal := do
  let data ← pyGetD result "data" (JVal.obj [])
  let rjs ← pyGetD data "resultJson" (JVal.str jsonEmptyObj)
  let resultJson ← pyLoadsIfStr loads rjs
  let urls1 ← pyGetD resultJson "resultUrls" (JVal.arr [])
  let urls ←
    if urls1.truthy then Except.ok urls1
    else do
      let data2 ← pyGetD result "data" (JVal.obj [])
      pyGetD data2 "resultUrls" (JVal.arr [])
  if urls.truthy then pyIndex0 urls
  else Except.error (PyExn.exn "No video URL in response")

/-- The normalized output of the two video facades: `url` plus the list of
urls passed to their `download_video` (exactly the first). -/
structure FacadeResult where
  url : JVal
  downloads : List JVal

/-- Steps 3-4 of `Sora2VideoCreator.create_video_from_image`. -/
def sora2CreateFromPayload (loads : String → Option JVal) (payload : JVal) :
    Except PyExn FacadeResult := do
  let u ← sora2ExtractVideoUrl loads payload
  Except.ok { url := u, downloads := [u] }

/-- The result parsing of `Veo3VideoCreator.create_video_from_images`
(src/veo_video_creator.py lines 493-504): `result["data"].get("videoUrl")`
(note the subscript), falling back to a truthy `resultJson` (a string is
passed through `json.loads`, uncaught here) and its `videoUrl`; when still
falsy, raise `No video URL in response`.  `resultUrls` arrays are never
consulted. -/
def veo3ExtractVideoUrl (loads : String → Option JVal) (result : JVal) :
    Except PyExn JVal := do
  let data ← pySub result "data"
  let v ← pyGetD data "videoUrl" JVal.null
  let v ←
    if v.truthy then Except.ok v
    else do
      let rj ← pyGetD data "resultJson" JVal.null
      if rj.truthy then do
        let rj2 ← pyLoadsIfStr loads rj
        pyGetD rj2 "videoUrl" JVal.null
      else Except.ok v
  if v.truthy then Except.ok v
  else Except.error (PyExn.exn "No video URL in response")

/-- Steps 3-4 of `Veo3VideoCreator.create_video_from_images`. -/
def veo3CreateFromPayload (loads : String → Option JVal) (payload : JVal) :
    Except PyExn FacadeResult := do
  let u ← veo3ExtractVideoUrl loads payload
  Except.ok { url := u, downloads := [u] }

/-! ## Concrete test environment for witnesses and counterexamples -/

/-- A concrete `json.loads` stand-in mapping the JSON texts used in the
concrete scenarios below to their parses; everything else fails to parse. -/
def loadsStub : String → Option JVal := fun s =>
  if s = jsonEmptyObj then some (JVal.obj [])
  else if s = "\x7b\"resultUrls\": [\"https://cdn/a.png\", \"https://cdn/b.png\"]\x7d" then
    some (JVal.obj [("resultUrls",
      JVal.arr [JVal.str "https://cdn/a.png", JVal.str "https://cdn/b.png"])])
  else if s = "\x7b\"videoUrl\": \"https://cdn/v.mp4\"\x7d" then
    some (JVal.obj [("videoUrl", JVal.str "https://cdn/v.mp4")])
  else none

/-- A webhook request whose content reports state `fail` for `taskId` with
failure message `m`. -/
def failReq (taskId m : String) : JVal :=
  JVal.obj [("content", JVal.obj [("data", JVal.obj
    [("taskId", JVal.str taskId), ("state", JVal.str "fail"),
     ("failMsg", JVal.str m)])])]

/-- A webhook request whose content reports state `success` for `taskId`. -/
def successReq (taskId : String) : JVal :=
  JVal.obj [("content", JVal.obj [("data", JVal.obj
    [("taskId", JVal.str taskId), ("state", JVal.str "success")])])]

/-- A direct-poll response with `code` 200 reporting state `fail` for
`taskId`. -/
def failPollResult (taskId m : String) : JVal :=
  JVal.obj [("code", JVal.num 200), ("data", JVal.obj
    [("taskId", JVal.str taskId), ("state", JVal.str "fail"),
     ("failMsg", JVal.str m)])]

/-- A direct-poll response with `code` 200 reporting state `success` for
`taskId`. -/
def successPollResult (taskId : String) : JVal :=
  JVal.obj [("code", JVal.num 200), ("data", JVal.obj
    [("taskId", JVal.str taskId), ("state", JVal.str "success")])]

/-- A concrete environment for the Sora2 status query: the first GET
candidate fails, the second GET succeeds. -/
def sora2RespStub : HttpMethod × String → Option JVal := fun e =>
  match e with
  | (HttpMethod.get, u) =>
    if u = kieBaseUrl ++ "/playground/query?taskId=abc123" then
      some (successPollResult "abc123")
    else none
  | _ => none

/-! ## Theorems -/

/-- The Kie wait loop raises its timeout only at a clock reading strictly
above `max_wait_time`, with the message of line 387. -/
theorem kieWaitAux_timeout_gt (tid : String) (hw : Bool) (mw : Nat)
    (loads : String → Option JVal) :
    ∀ (trace : List IterObs) (pa e : Nat) (msg : String),
      kieWaitAux tid hw mw loads pa trace = WaitOutcome.timeout e msg →
      mw < e ∧ msg = kieTimeoutMsg tid mw := by
  intro trace
  induction trace with
  | nil => intro pa e msg h; simp [kieWaitAux] at h
  | cons obs rest ih =>
    intro pa e msg h
    simp only [kieWaitAux] at h
    split at h
    case isTrue hto =>
      injection h with h1 h2
      subst h1; subst h2
      exact ⟨hto, rfl⟩
    case isFalse hto =>
      split at h
      · simp at h
      · split at h
        · split at h
          · simp at h
          · exact ih _ _ _ h
        · exact ih _ _ _ h

/-- When nothing arrives on either channel and the clock passes
`max_wait_time`, the Kie wait loop raises its timeout. -/
theorem kieWaitAux_times_out (tid : String) (hw : Bool) (mw : Nat)
    (loads : String → Option JVal) :
    ∀ (trace : List IterObs) (pa : Nat),
      (∀ obs ∈ trace, obs.reqs = [] ∧ obs.query = Except.error ()) →
      (∃ obs ∈ trace, mw < obs.elapsed) →
      ∃ e, kieWaitAux tid hw mw loads pa trace =
        WaitOutcome.timeout e (kieTimeoutMsg tid mw) ∧ mw < e := by
  intro trace
  induction trace with
  | nil => intro pa _ hex; rcases hex with ⟨o, ho, _⟩; cases ho
  | cons obs rest ih =>
    intro pa hall hex
    by_cases hto : mw < obs.elapsed
    · refine ⟨obs.elapsed, ?_, hto⟩
      simp only [kieWaitAux]
      rw [if_pos hto]
    · have hobs := hall obs (List.mem_cons_self _ _)
      have hrest : ∀ o ∈ rest, o.reqs = [] ∧ o.query = Except.error () :=
        fun o ho => hall o (List.mem_cons_of_mem _ ho)
      have hex' : ∃ o ∈ rest, mw < o.elapsed := by
        rcases hex with ⟨o, ho, hlt⟩
        rcases List.mem_cons.mp ho with rfl | ho'
        · exact absurd hlt hto
        · exact ⟨o, ho', hlt⟩
      obtain ⟨e, he, hlt⟩ := ih (pa + 1) hrest hex'
      refine ⟨e, ?_, hlt⟩
      simp only [kieWaitAux]
      rw [if_neg hto, hobs.1, hobs.2]
      have hscan : (if hw then kieScanWebhook tid loads [] else none) = none := by
        cases hw <;> rfl
      rw [hscan]
      have hpoll : kiePollStep (Except.error ()) = none := rfl
      simp only [hpoll]
      split <;> exact he

/-- The Sora2 wait loop raises its timeout only at a clock reading strictly
above `max_wait_time`, with the message of line 249. -/
theorem sora2WaitAux_timeout_gt (tid : String) (hw : Bool) (mw : Nat)
    (loads : String → Option JVal) :
    ∀ (trace : List IterObs) (e : Nat) (msg : String),
      sora2WaitAux tid hw mw loads trace = WaitOutcome.timeout e msg →
      mw < e ∧ msg = sora2TimeoutMsg tid mw := by
  intro trace
  induction trace with
  | nil => intro e msg h; simp [sora2WaitAux] at h
  | cons obs rest ih =>
    intro e msg h
    simp only [sora2WaitAux] at h
    split at h
    case isTrue hto =>
      injection h with h1 h2
      subst h1; subst h2
      exact ⟨hto, rfl⟩
    case isFalse hto =>
      split at h
      · simp at h
      · simp at h
      · split at h
        · simp at h
        · exact ih _ _ h

/-- When nothing arrives on either channel and the clock passes
`max_wait_time`, the Sora2 wait loop raises its timeout. -/
theorem sora2WaitAux_times_out (tid : String) (hw : Bool) (mw : Nat)
    (loads : String → Option JVal) :
    ∀ (trace : List IterObs),
      (∀ obs ∈ trace, obs.reqs = [] ∧ obs.query = Except.error ()) →
      (∃ obs ∈ trace, mw < obs.elapsed) →
      ∃ e, sora2WaitAux tid hw mw loads trace =
        WaitOutcome.timeout e (sora2TimeoutMsg tid mw) ∧ mw < e := by
  intro trace
  induction trace with
  | nil => intro _ hex; rcases hex with ⟨o, ho, _⟩; cases ho
  | cons obs rest ih =>
    intro hall hex
    by_cases hto : mw < obs.elapsed
    · refine ⟨obs.elapsed, ?_, hto⟩
      simp only [sora2WaitAux]
      rw [if_pos hto]
    · have hobs := hall obs (List.mem_cons_self _ _)
      have hrest : ∀ o ∈ rest, o.reqs = [] ∧ o.query = Except.error () :=
        fun o ho => hall o (List.mem_cons_of_mem _ ho)
      have hex' : ∃ o ∈ rest, mw < o.elapsed := by
        rcases hex with ⟨o, ho, hlt⟩
        rcases List.mem_cons.mp ho with rfl | ho'
        · exact absurd hlt hto
        · exact ⟨o, ho', hlt⟩
      obtain ⟨e, he, hlt⟩ := ih hrest hex'
      refine ⟨e, ?_, hlt⟩
      simp only [sora2WaitAux]
      rw [if_neg hto, hobs.1, hobs.2]
      have hscan : (if hw then sora2ScanWebhook tid loads [] else Except.ok none) =
          Except.ok none := by
        cases hw <;> rfl
      rw [hscan]
      have hpoll : sora2PollStep (Except.error ()) = none := rfl
      simp only [hpoll]
      exact he

/-- The webhook phase of the Veo3 loop terminates the wait only with a
webhook `success` payload (a `fail` payload is swallowed by its handlers). -/
theorem veo3WebhookPhase_error_success (tid : String) (hw : Bool)
    (loads : String → Option JVal) (cf : Nat) (fetch : VeoFetch) (o : WaitOutcome)
    (h : veo3WebhookPhase tid hw loads cf fetch = Except.error o) :
    ∃ p, o = WaitOutcome.success p := by
  unfold veo3WebhookPhase at h
  split at h
  · split at h
    · split at h
      · split at h
        · injection h with h1
          exact ⟨_, h1.symm⟩
        · simp at h
      · simp at h
    · simp at h
  · simp at h

/-- The Veo3 wait loop raises its timeout only at a clock reading strictly
above `max_wait_time`, with the message of lines 272-281. -/
theorem veo3WaitRun_timeout_gt (tid : String) (hw : Bool) (mw : Nat)
    (loads : String → Option JVal) :
    ∀ (trace : List VeoIterObs) (cf lastQ e : Nat) (msg : String),
      (veo3WaitRun tid hw mw loads cf lastQ trace).1 = WaitOutcome.timeout e msg →
      mw < e ∧ msg = veo3TimeoutMsg tid e := by
  intro trace
  induction trace with
  | nil => intro cf lastQ e msg h; simp [veo3WaitRun] at h
  | cons obs rest ih =>
    intro cf lastQ e msg h
    simp only [veo3WaitRun] at h
    split at h
    case isTrue hto =>
      injection h with h1 h2
      subst h1; subst h2
      exact ⟨hto, rfl⟩
    case isFalse hto =>
      split at h
      case h_1 o ho =>
        obtain ⟨p, rfl⟩ := veo3WebhookPhase_error_success _ _ _ _ _ _ ho
        simp at h
      case h_2 cf' _ =>
        split at h
        · split at h
          · simp at h
          · simp at h
          · exact ih _ _ _ _ h
        · exact ih _ _ _ _ h

/-- When every relay fetch fails and every direct query returns `None`, the
Veo3 wait loop raises its timeout once the clock passes `max_wait_time`. -/
theorem veo3WaitRun_times_out (tid : String) (hw : Bool) (mw : Nat)
    (loads : String → Option JVal) :
    ∀ (trace : List VeoIterObs) (cf lastQ : Nat),
      (∀ obs ∈ trace, obs.fetch = VeoFetch.fetchError ∧ obs.query = none) →
      (∃ obs ∈ trace, mw < obs.elapsed) →
      ∃ e, (veo3WaitRun tid hw mw loads cf lastQ trace).1 =
        WaitOutcome.timeout e (veo3TimeoutMsg tid e) ∧ mw < e := by
  intro trace
  induction trace with
  | nil => intro cf lastQ _ hex; rcases hex with ⟨o, ho, _⟩; cases ho
  | cons obs rest ih =>
    intro cf lastQ hall hex
    by_cases hto : mw < obs.elapsed
    · refine ⟨obs.elapsed, ?_, hto⟩
      simp only [veo3WaitRun]
      rw [if_pos hto]
    · have hobs := hall obs (List.mem_cons_self _ _)
      have hrest : ∀ o ∈ rest, o.fetch = VeoFetch.fetchError ∧ o.query = none :=
        fun o ho => hall o (List.mem_cons_of_mem _ ho)
      have hex' : ∃ o ∈ rest, mw < o.elapsed := by
        rcases hex with ⟨o, ho, hlt⟩
        rcases List.mem_cons.mp ho with rfl | ho'
        · exact absurd hlt hto
        · exact ⟨o, ho', hlt⟩
      simp only [veo3WaitRun]
      rw [if_neg hto, hobs.1, hobs.2]
      obtain ⟨cf', hp⟩ : ∃ cf',
          veo3WebhookPhase tid hw loads cf VeoFetch.fetchError = Except.ok cf' := by
        unfold veo3WebhookPhase
        split
        · exact ⟨0, rfl⟩
        · exact ⟨cf, rfl⟩
      rw [hp]
      split
      next o ho => simp at ho
      next cf2 hcf2 =>
        injection hcf2 with hcf2
        subst hcf2
        split
        case isTrue =>
          have hq : veo3DirectQueryBody none = Except.ok none := rfl
          rw [hq]
          obtain ⟨e, he, hlt⟩ := ih cf' obs.elapsed hrest hex'
          exact ⟨e, by simpa using he, hlt⟩
        case isFalse =>
          exact ih cf' lastQ hrest hex'

/-- Whenever `get_webhook_requests` returns a list (which it also does on a
fetch failure), the Veo3 webhook phase resets the failure counter to 0. -/
theorem veo3WebhookPhase_ok_zero_of_isSome (tid : String) (hw : Bool)
    (loads : String → Option JVal) (fetch : VeoFetch) (cf' : Nat)
    (hs : (veo3GetWebhookRequests fetch).isSome = true)
    (h : veo3WebhookPhase tid hw loads 0 fetch = Except.ok cf') :
    cf' = 0 := by
  cases fetch with
  | dataNull => simp [veo3GetWebhookRequests] at hs
  | fetchError =>
    unfold veo3WebhookPhase at h
    split at h
    · simp only [veo3GetWebhookRequests] at h
      rw [if_pos (by simp)] at h
      split at h
      · simp at h
      · injection h with h1
        exact h1.symm
    · injection h with h1
      exact h1.symm
  | dataList rs =>
    unfold veo3WebhookPhase at h
    split at h
    · simp only [veo3GetWebhookRequests] at h
      rw [if_pos (by simp)] at h
      split at h
      · simp at h
      · injection h with h1
        exact h1.symm
    · injection h with h1
      exact h1.symm

/-- While every relay fetch returns a list, the Veo3 loop never issues a
direct status query. -/
theorem veo3WaitRun_no_query_of_healthy (tid : String) (hw : Bool) (mw : Nat)
    (loads : String → Option JVal) :
    ∀ (trace : List VeoIterObs) (lastQ : Nat),
      (∀ obs ∈ trace, (veo3GetWebhookRequests obs.fetch).isSome = true) →
      (veo3WaitRun tid hw mw loads 0 lastQ trace).2 = [] := by
  intro trace
  induction trace with
  | nil => intro lastQ _; rfl
  | cons obs rest ih =>
    intro lastQ hall
    have hobs := hall obs (List.mem_cons_self _ _)
    have hrest : ∀ o ∈ rest, (veo3GetWebhookRequests o.fetch).isSome = true :=
      fun o ho => hall o (List.mem_cons_of_mem _ ho)
    simp only [veo3WaitRun]
    split
    · rfl
    · split
      next o ho => rfl
      next cf' hcf' =>
        have h0 : cf' = 0 := veo3WebhookPhase_ok_zero_of_isSome tid hw loads _ _ hobs hcf'
        subst h0
        rw [if_neg (by simp)]
        exact ih lastQ hrest

/-- Every direct query of the Veo3 loop happens at least 120 elapsed seconds
after `last_direct_query_time`, and consecutive queries are at least 120
elapsed seconds apart. -/
theorem veo3WaitRun_query_times_bounds (tid : String) (hw : Bool) (mw : Nat)
    (loads : String → Option JVal) :
    ∀ (trace : List VeoIterObs) (cf lastQ : Nat),
      (∀ q ∈ (veo3WaitRun tid hw mw loads cf lastQ trace).2, lastQ + 120 ≤ q) ∧
      List.Chain' (fun a b => a + 120 ≤ b)
        (veo3WaitRun tid hw mw loads cf lastQ trace).2 := by
  intro trace
  induction trace with
  | nil => intro cf lastQ; exact ⟨by simp [veo3WaitRun], by simp [veo3WaitRun]⟩
  | cons obs rest ih =>
    intro cf lastQ
    simp only [veo3WaitRun]
    split
    · exact ⟨by simp, by simp⟩
    · split
      next o ho => exact ⟨by simp, by simp⟩
      next cf' hcf' =>
        split
        case isTrue hq =>
          have h120 : lastQ + 120 ≤ obs.elapsed := by
            have h2 := (Bool.and_eq_true _ _).mp hq |>.2
            have h3 := of_decide_eq_true h2
            omega
          split
          · exact ⟨by simpa using h120, by simp⟩
          · exact ⟨by simpa using h120, by simp⟩
          · obtain ⟨ihb, ihc⟩ := ih cf' obs.elapsed
            constructor
            · intro q hqm
              simp only [List.mem_cons] at hqm
              rcases hqm with rfl | hqm
              · exact h120
              · have := ihb q hqm
                omega
            · refine List.chain'_cons'.mpr ⟨?_, ihc⟩
              intro b hb
              exact ihb b (List.mem_of_mem_head? hb)
        case isFalse =>
          exact ih cf' lastQ

/-- When every candidate endpoint fails, the candidate scan yields nothing. -/
theorem tryEndpoints_all_fail (resp : HttpMethod × String → Option JVal) :
    ∀ (l : List (HttpMethod × String)),
      (∀ e ∈ l, resp e = none) → tryEndpoints resp l = none := by
  intro l
  induction l with
  | nil => intro _; rfl
  | cons e rest ih =>
    intro hall
    simp only [tryEndpoints]
    rw [hall e (List.mem_cons_self _ _)]
    exact ih (fun e' he' => hall e' (List.mem_cons_of_mem _ he'))

/-- The candidate scan returns the response of the first succeeding
candidate. -/
theorem tryEndpoints_first_success (resp : HttpMethod × String → Option JVal) :
    ∀ (pre : List (HttpMethod × String)) (e : HttpMethod × String)
      (post : List (HttpMethod × String)) (j : JVal),
      (∀ e' ∈ pre, resp e' = none) → resp e = some j →
      tryEndpoints resp (pre ++ e :: post) = some j := by
  intro pre
  induction pre with
  | nil =>
    intro e post j _ hj
    simp only [List.nil_append, tryEndpoints]
    rw [hj]
  | cons a rest ih =>
    intro e post j hpre hj
    simp only [List.cons_append, tryEndpoints]
    rw [hpre a (List.mem_cons_self _ _)]
    exact ih e post j (fun e' he' => hpre e' (List.mem_cons_of_mem _ he')) hj


/-- Claim C6 (amended): each facade normalizes the payload shapes it knows
and raises a parse error on the others.  Kie and Sora2 extract the asset URL
from `data.resultJson` (a string decoded with `json.loads`) containing
`resultUrls` and from a direct `data.resultUrls` array, and raise on a
`data.videoUrl` payload; Veo3 extracts from `data.videoUrl` directly and
from `data.resultJson` containing `videoUrl`, and raises on a
`data.resultUrls` payload. -/
theorem response_shape_normalization_amended :
    ∀ (loads : String → Option JVal),
      (∀ (s : String) (u : JVal) (urest : List JVal),
        loads s = some (JVal.obj [("resultUrls", JVal.arr (u :: urest))]) →
        kieParseResultUrls loads
            (JVal.obj [("data", JVal.obj [("resultJson", JVal.str s)])]) =
          Except.ok (JVal.arr (u :: urest)) ∧
        sora2ExtractVideoUrl loads
            (JVal.obj [("data", JVal.obj [("resultJson", JVal.str s)])]) =
          Except.ok u) ∧
      (∀ (u : JVal) (urest : List JVal),
        loads jsonEmptyObj = some (JVal.obj []) →
        kieParseResultUrls loads
            (JVal.obj [("data", JVal.obj [("resultUrls", JVal.arr (u :: urest))])]) =
          Except.ok (JVal.arr (u :: urest)) ∧
        sora2ExtractVideoUrl loads
            (JVal.obj [("data", JVal.obj [("resultUrls", JVal.arr (u :: urest))])]) =
          Except.ok u) ∧
      (∀ us : String, us ≠ "" →
        veo3ExtractVideoUrl loads
            (JVal.obj [("data", JVal.obj [("videoUrl", JVal.str us)])]) =
          Except.ok (JVal.str us)) ∧
      (∀ (s us : String), s ≠ "" → us ≠ "" →
        loads s = some (JVal.obj [("videoUrl", JVal.str us)]) →
        veo3ExtractVideoUrl loads
            (JVal.obj [("data", JVal.obj [("resultJson", JVal.str s)])]) =
          Except.ok (JVal.str us)) ∧
      (∀ urlsJ : JVal,
        veo3ExtractVideoUrl loads
            (JVal.obj [("data", JVal.obj [("resultUrls", urlsJ)])]) =
          Except.error (PyExn.exn "No video URL in response")) ∧
      (∀ v : JVal,
        loads jsonEmptyObj = some (JVal.obj []) →
        kieParseResultUrls loads
            (JVal.obj [("data", JVal.obj [("videoUrl", v)])]) =
          Except.error (PyExn.exn "No images generated") ∧
        sora2ExtractVideoUrl loads
            (JVal.obj [("data", JVal.obj [("videoUrl", v)])]) =
          Except.error (PyExn.exn "No video URL in response")) := by
  intro loads
  refine ⟨?_, ?_, ?_, ?_, ?_, ?_⟩
  · intro s u urest hl
    constructor
    · simp [kieParseResultUrls, pyGetD, pyLoadsIfStr, hl, JVal.truthy,
        Bind.bind, Except.bind, List.lookup, Option.getD]
    · simp [sora2ExtractVideoUrl, pyGetD, pyLoadsIfStr, hl, JVal.truthy, pyIndex0,
        Bind.bind, Except.bind, List.lookup, Option.getD]
  · intro u urest hl
    constructor
    · simp [kieParseResultUrls, pyGetD, pyLoadsIfStr, hl, JVal.truthy,
        Bind.bind, Except.bind, List.lookup, Option.getD]
    · simp [sora2ExtractVideoUrl, pyGetD, pyLoadsIfStr, hl, JVal.truthy, pyIndex0,
        Bind.bind, Except.bind, List.lookup, Option.getD]
  · intro us hus
    simp [veo3ExtractVideoUrl, pySub, pyGetD, pyLoadsIfStr, JVal.truthy, hus,
      Bind.bind, Except.bind, List.lookup, Option.getD]
  · intro s us hs hus hl
    simp [veo3ExtractVideoUrl, pySub, pyGetD, pyLoadsIfStr, JVal.truthy, hs, hus, hl,
      Bind.bind, Except.bind, List.lookup, Option.getD]
  · intro urlsJ
    simp [veo3ExtractVideoUrl, pySub, pyGetD, pyLoadsIfStr, JVal.truthy,
      Bind.bind, Except.bind, List.lookup, Option.getD]
  · intro v hl
    constructor
    · simp [kieParseResultUrls, pyGetD, pyLoadsIfStr, hl, JVal.truthy,
        Bind.bind, Except.bind, List.lookup, Option.getD]
    · simp [sora2ExtractVideoUrl, pyGetD, pyLoadsIfStr, hl, JVal.truthy, pyIndex0,
        Bind.bind, Except.bind, List.lookup, Option.getD]

/-- Claim C1 (code bug): a `state=fail` payload does not terminate the wait.
The raised `Task failed` exception is caught by the surrounding per-payload
(and, for Kie, per-poll) `except Exception` handlers, which `continue`: the
Kie waiter sees a fail payload on the webhook at every iteration and a fail
response from the direct poll on its third attempt, yet runs to its timeout;
the Sora2 and Veo3 waiters see a webhook fail payload and keep looping. -/
theorem fail_payloads_swallowed_not_shortcircuit :
    kieWaitForTask "k1" true 600 loadsStub
        [⟨0, [failReq "k1" "server exploded"],
          Except.ok (failPollResult "k1" "server exploded")⟩,
         ⟨10, [failReq "k1" "server exploded"],
          Except.ok (failPollResult "k1" "server exploded")⟩,
         ⟨20, [failReq "k1" "server exploded"],
          Except.ok (failPollResult "k1" "server exploded")⟩,
         ⟨601, [failReq "k1" "server exploded"],
          Except.ok (failPollResult "k1" "server exploded")⟩] =
      WaitOutcome.timeout 601 (kieTimeoutMsg "k1" 600) ∧
    sora2WaitForVideo "s1" true 300 loadsStub
        [⟨0, [failReq "s1" "content policy violation"],
          Except.ok (failPollResult "s1" "content policy violation")⟩] =
      WaitOutcome.outOfTrace ∧
    veo3WaitForVideo "v1" true 1800 loadsStub
        [⟨0, VeoFetch.dataList [failReq "v1" "render error"], none⟩] =
      WaitOutcome.outOfTrace :=
  ⟨rfl, rfl, rfl⟩

/-- Claim C2 (code bug): consecutive webhook fetch failures never demote the
Veo3 webhook channel.  A failed fetch returns `[]`, which passes the
`requests_list is not None and len(requests_list) >= 0` gate and resets the
counter, so after three straight fetch failures the waiter still never
consults the direct-poll channel even though it would report success; and
when the counter does reach 2 (via JSON-null `data` bodies), the webhook
branch is skipped for good, so a late-arriving webhook success payload is
never seen either. -/
theorem veo3_webhook_fetch_failures_never_demote :
    veo3WaitForVideo "v2" true 1800 loadsStub
        [⟨0, VeoFetch.fetchError, some (successPollResult "v2")⟩,
         ⟨130, VeoFetch.fetchError, some (successPollResult "v2")⟩,
         ⟨260, VeoFetch.fetchError, some (successPollResult "v2")⟩] =
      WaitOutcome.outOfTrace ∧
    veo3WaitForVideo "v3" true 1800 loadsStub
        [⟨0, VeoFetch.dataNull, none⟩, ⟨10, VeoFetch.dataNull, none⟩,
         ⟨20, VeoFetch.dataList [successReq "v3"], none⟩] =
      WaitOutcome.outOfTrace :=
  ⟨rfl, rfl⟩

/-- Claim C8: when the response carries no `Content-Length`
(`total_size = 0`), `KieGenerator.download_image` performs no completeness
check at all - the download is accepted for every byte count, including
zero. -/
theorem kie_download_no_content_length_no_check :
    ∀ downloaded : Nat, kieDownloadCheck 0 downloaded = Except.ok () := by
  intro d
  simp [kieDownloadCheck]

/-- Claim C4 counterexample: with a declared `Content-Length` of 1000 and
900 downloaded bytes (10 percent missing), `Sora2VideoCreator.download_video`
accepts the download instead of raising the completeness failure the claim
requires of every downloader. -/
theorem sora2_incomplete_download_accepted :
    sora2DownloadCheck 1000 900 = Except.ok () := rfl

/-- Claim C4 (amended): only `KieGenerator.download_image` applies the
5-percent completeness threshold (accept exactly when the missing share is
strictly below 5 percent of the declared size); the Sora2 and Veo3
`download_video` accept any download that produces a nonempty file,
regardless of the declared `Content-Length`. -/
theorem download_tolerance_amended :
    ∀ t d : Nat,
      (0 < t → d < t →
        ((kieDownloadCheck t d = Except.ok ()) ↔ (t - d) * 100 < 5 * t)) ∧
      ((sora2DownloadCheck t d = Except.ok ()) ↔ 0 < d) ∧
      ((veo3DownloadCheck t d = Except.ok ()) ↔ 0 < d) := by
  intro t d
  refine ⟨?_, ?_, ?_⟩
  · intro ht hd
    unfold kieDownloadCheck
    rw [if_pos ⟨ht, hd⟩]
    split
    case isTrue h => simp [h]
    case isFalse h => simp [h]
  · unfold sora2DownloadCheck
    split
    case isTrue h => simp [h]
    case isFalse h => simp [h]
  · unfold veo3DownloadCheck
    split
    case isTrue h => simp [h]
    case isFalse h => simp [h]

/-- Witness for C4 at the spec's concrete sizes: 1000/960 accepted by Kie,
1000/900 rejected by Kie but accepted by Sora2 and Veo3. -/
theorem download_tolerance_amended_witness :
    (kieDownloadCheck 1000 960 = Except.ok ()) ∧
    ¬ (kieDownloadCheck 1000 900 = Except.ok ()) ∧
    (sora2DownloadCheck 1000 900 = Except.ok ()) ∧
    (veo3DownloadCheck 1000 900 = Except.ok ()) := by
  refine ⟨?_, ?_, ?_, ?_⟩
  · exact ((download_tolerance_amended 1000 960).1 (by decide) (by decide)).mpr (by decide)
  · intro hc
    exact absurd (((download_tolerance_amended 1000 900).1 (by decide) (by decide)).mp hc)
      (by decide)
  · exact ((download_tolerance_amended 1000 900).2.1).mpr (by decide)
  · exact ((download_tolerance_amended 1000 900).2.2).mpr (by decide)

/-- Claim C5 counterexample: when every candidate endpoint fails,
`Sora2VideoCreator.query_task` raises the last error instead of returning
`None` as the claim states. -/
theorem sora2_query_all_fail_raises :
    sora2QueryTask (fun _ => none) "abc123" = Except.error () := rfl

/-- Claim C5 (amended): both `query_task`s try a fixed priority sequence of
candidate endpoints (GET variants first, then POST variants) and return the
first successful response; when every candidate fails, `Veo3` returns `None`
while `Sora2` raises the last error (its caller catches the exception, so
the wait loop continues either way). -/
theorem query_task_endpoint_order_amended :
    ∀ (resp : HttpMethod × String → Option JVal) (tid : String),
      ((∀ e ∈ sora2QueryCandidates tid, resp e = none) →
        sora2QueryTask resp tid = Except.error ()) ∧
      ((∀ e ∈ veo3QueryCandidates tid, resp e = none) →
        veo3QueryTask resp tid = none) ∧
      (∀ (pre : List (HttpMethod × String)) (e : HttpMethod × String)
        (post : List (HttpMethod × String)) (j : JVal),
        sora2QueryCandidates tid = pre ++ e :: post →
        (∀ e' ∈ pre, resp e' = none) → resp e = some j →
        sora2QueryTask resp tid = Except.ok j) ∧
      (∀ (pre : List (HttpMethod × String)) (e : HttpMethod × String)
        (post : List (HttpMethod × String)) (j : JVal),
        veo3QueryCandidates tid = pre ++ e :: post →
        (∀ e' ∈ pre, resp e' = none) → resp e = some j →
        veo3QueryTask resp tid = some j) ∧
      (sora2QueryCandidates tid).map Prod.fst =
        [HttpMethod.get, HttpMethod.get, HttpMethod.post, HttpMethod.post] ∧
      (veo3QueryCandidates tid).map Prod.fst =
        [HttpMethod.get, HttpMethod.get, HttpMethod.get,
         HttpMethod.post, HttpMethod.post] := by
  intro resp tid
  refine ⟨?_, ?_, ?_, ?_, rfl, rfl⟩
  · intro hall
    unfold sora2QueryTask
    rw [tryEndpoints_all_fail resp _ hall]
  · intro hall
    exact tryEndpoints_all_fail resp _ hall
  · intro pre e post j hsplit hpre hj
    unfold sora2QueryTask
    rw [hsplit, tryEndpoints_first_success resp pre e post j hpre hj]
  · intro pre e post j hsplit hpre hj
    unfold veo3QueryTask
    rw [hsplit]
    exact tryEndpoints_first_success resp pre e post j hpre hj

/-- Witness for C5: the second GET candidate wins for Sora2; Veo3 returns
`None` when everything fails. -/
theorem query_task_endpoint_order_amended_witness :
    sora2QueryTask sora2RespStub "abc123" = Except.ok (successPollResult "abc123") ∧
    veo3QueryTask (fun _ => none) "abc123" = none := by
  constructor
  · refine (query_task_endpoint_order_amended sora2RespStub "abc123").2.2.1
      [(HttpMethod.get, kieBaseUrl ++ "/jobs/query?taskId=abc123")]
      (HttpMethod.get, kieBaseUrl ++ "/playground/query?taskId=abc123")
      [(HttpMethod.post, kieBaseUrl ++ "/jobs/query"),
       (HttpMethod.post, kieBaseUrl ++ "/playground/query")]
      (successPollResult "abc123") rfl ?_ rfl
    intro e' he'
    simp only [List.mem_singleton] at he'
    subst he'
    rfl
  · exact (query_task_endpoint_order_amended (fun _ => none) "abc123").2.1
      (fun _ _ => rfl)

/-- Claim C6 counterexample: `Veo3VideoCreator.create_video_from_images`
does not extract a URL from the `data.resultUrls` direct-array shape - it
raises `No video URL in response`, contradicting the claim that every facade
handles all three payload shapes. -/
theorem veo3_resultUrls_shape_not_extracted :
    veo3ExtractVideoUrl loadsStub
        (JVal.obj [("data", JVal.obj [("resultUrls",
          JVal.arr [JVal.str "https://cdn/x.mp4"])])]) =
      Except.error (PyExn.exn "No video URL in response") := rfl

/-- Witness for C6 on concrete payloads of each shape. -/
theorem response_shape_normalization_amended_witness :
    kieParseResultUrls loadsStub
        (JVal.obj [("data", JVal.obj [("resultJson",
          JVal.str "\x7b\"resultUrls\": [\"https://cdn/a.png\", \"https://cdn/b.png\"]\x7d")])]) =
      Except.ok (JVal.arr [JVal.str "https://cdn/a.png", JVal.str "https://cdn/b.png"]) ∧
    sora2ExtractVideoUrl loadsStub
        (JVal.obj [("data", JVal.obj [("resultJson",
          JVal.str "\x7b\"resultUrls\": [\"https://cdn/a.png\", \"https://cdn/b.png\"]\x7d")])]) =
      Except.ok (JVal.str "https://cdn/a.png") ∧
    veo3ExtractVideoUrl loadsStub
        (JVal.obj [("data", JVal.obj [("videoUrl", JVal.str "https://cdn/v.mp4")])]) =
      Except.ok (JVal.str "https://cdn/v.mp4") ∧
    veo3ExtractVideoUrl loadsStub
        (JVal.obj [("data", JVal.obj [("resultJson",
          JVal.str "\x7b\"videoUrl\": \"https://cdn/v.mp4\"\x7d")])]) =
      Except.ok (JVal.str "https://cdn/v.mp4") ∧
    sora2ExtractVideoUrl loadsStub
        (JVal.obj [("data", JVal.obj [("videoUrl", JVal.str "https://cdn/v.mp4")])]) =
      Except.error (PyExn.exn "No video URL in response") := by
  obtain ⟨h1, h2, h3, h4, h5, h6⟩ := response_shape_normalization_amended loadsStub
  have ha := h1 "\x7b\"resultUrls\": [\"https://cdn/a.png\", \"https://cdn/b.png\"]\x7d"
    (JVal.str "https://cdn/a.png") [JVal.str "https://cdn/b.png"] rfl
  exact ⟨ha.1, ha.2, h3 "https://cdn/v.mp4" (by decide),
    h4 "\x7b\"videoUrl\": \"https://cdn/v.mp4\"\x7d" "https://cdn/v.mp4"
      (by decide) (by decide) rfl,
    (h6 (JVal.str "https://cdn/v.mp4") rfl).2⟩

/-- Claim C7: a webhook `fail` payload whose `failMsg` contains the vendor
substring `photorealistic people` (case-insensitively) makes the Sora2
waiter raise the dedicated error - whose message itself contains that
substring, so a caller can trigger a vendor fallback - propagating out of
the wait loop instead of being swallowed. -/
theorem sora2_photorealistic_failure_surfaced :
    ∀ (tid m : String) (mw : Nat) (loads : String → Option JVal)
      (rest : List IterObs),
      containsSub (pyLower m) "photorealistic people" = true →
      sora2WaitForVideo tid true mw loads
          (⟨0, [failReq tid m], Except.error ()⟩ :: rest) =
        WaitOutcome.failure sora2PhotoMsg ∧
      containsSub (pyLower sora2PhotoMsg) "photorealistic people" = true := by
  intro tid m mw loads rest hm
  constructor
  · unfold sora2WaitForVideo sora2WaitAux
    rw [if_neg (by simp)]
    have hscan : sora2ScanWebhook tid loads [failReq tid m] =
        Except.error sora2PhotoMsg := by
      simp [sora2ScanWebhook, sora2ProcessReq, failReq, pyGetD, pyLoadsIfStr,
        Bind.bind, Except.bind, List.lookup, Option.getD, JVal.eqStr, hm,
        show containsSub (pyLower sora2PhotoMsg) "photorealistic people" = true from rfl]
    rw [if_pos rfl, hscan]
  · rfl

/-- Witness for C7 with a concrete vendor failure message. -/
theorem sora2_photorealistic_failure_surfaced_witness :
    sora2WaitForVideo "sw" true 300 loadsStub
        [⟨0, [failReq "sw" "Image contains Photorealistic People and was rejected"],
          Except.error ()⟩] =
      WaitOutcome.failure sora2PhotoMsg ∧
    containsSub (pyLower sora2PhotoMsg) "photorealistic people" = true :=
  sora2_photorealistic_failure_surfaced "sw"
    "Image contains Photorealistic People and was rejected" 300 loadsStub [] (by decide)

/-- Claim C9: the Veo3 waiter issues no direct query while the webhook
channel is healthy (every fetch yields a list), its direct queries are at
least 120 elapsed seconds apart, and the first one happens no earlier than
120 seconds in. -/
theorem veo3_direct_query_rate_limited :
    ∀ (tid : String) (hw : Bool) (mw : Nat) (loads : String → Option JVal)
      (trace : List VeoIterObs),
      ((∀ obs ∈ trace, (veo3GetWebhookRequests obs.fetch).isSome = true) →
        veo3QueryTimes tid hw mw loads trace = []) ∧
      List.Chain' (fun a b => a + 120 ≤ b) (veo3QueryTimes tid hw mw loads trace) ∧
      (∀ q ∈ veo3QueryTimes tid hw mw loads trace, 120 ≤ q) := by
  intro tid hw mw loads trace
  refine ⟨?_, ?_, ?_⟩
  · intro h
    exact veo3WaitRun_no_query_of_healthy tid hw mw loads trace 0 h
  · exact (veo3WaitRun_query_times_bounds tid hw mw loads trace 0 0).2
  · intro q hq
    have := (veo3WaitRun_query_times_bounds tid hw mw loads trace 0 0).1 q hq
    omega

/-- Witness for C9: a trace that demotes the webhook and issues two direct
queries 130 seconds apart, and a healthy trace with no query. -/
theorem veo3_direct_query_rate_limited_witness :
    List.Chain' (fun a b => a + 120 ≤ b)
      (veo3QueryTimes "w9" true 1800 loadsStub
        [⟨0, VeoFetch.dataNull, none⟩, ⟨10, VeoFetch.dataNull, none⟩,
         ⟨130, VeoFetch.fetchError, none⟩, ⟨260, VeoFetch.fetchError, none⟩]) ∧
    veo3QueryTimes "w9" true 1800 loadsStub
      [⟨0, VeoFetch.fetchError, some (successPollResult "w9")⟩,
       ⟨130, VeoFetch.dataList [], none⟩] = [] := by
  constructor
  · exact (veo3_direct_query_rate_limited "w9" true 1800 loadsStub _).2.1
  · refine (veo3_direct_query_rate_limited "w9" true 1800 loadsStub _).1 ?_
    intro obs h
    rcases List.mem_cons.mp h with rfl | h2
    · rfl
    rcases List.mem_cons.mp h2 with rfl | h3
    · rfl
    cases h3

/-- Claim C10: when a success payload carries more than one result URL, the
Kie and Sora2 facades return the first URL as `url` (Kie also returns the
full list as `all_urls`) and download only that first URL. -/
theorem facades_download_first_url_only :
    ∀ (loads : String → Option JVal) (u u2 : JVal) (urest : List JVal),
      loads jsonEmptyObj = some (JVal.obj []) →
      kieGenerateFromPayload loads
          (JVal.obj [("data", JVal.obj [("resultUrls",
            JVal.arr (u :: u2 :: urest))])]) =
        Except.ok { url := u, allUrls := JVal.arr (u :: u2 :: urest),
                    downloads := [u] } ∧
      sora2CreateFromPayload loads
          (JVal.obj [("data", JVal.obj [("resultUrls",
            JVal.arr (u :: u2 :: urest))])]) =
        Except.ok { url := u, downloads := [u] } := by
  intro loads u u2 urest hl
  constructor
  · simp [kieGenerateFromPayload, kieParseResultUrls, pyGetD, pyLoadsIfStr, hl,
      JVal.truthy, pyIndex0, Bind.bind, Except.bind, List.lookup, Option.getD]
  · simp [sora2CreateFromPayload, sora2ExtractVideoUrl, pyGetD, pyLoadsIfStr, hl,
      JVal.truthy, pyIndex0, Bind.bind, Except.bind, List.lookup, Option.getD]

/-- Witness for C10 with a two-URL payload. -/
theorem facades_download_first_url_only_witness :
    kieGenerateFromPayload loadsStub
        (JVal.obj [("data", JVal.obj [("resultUrls",
          JVal.arr [JVal.str "https://cdn/a.png", JVal.str "https://cdn/b.png"])])]) =
      Except.ok { url := JVal.str "https://cdn/a.png",
                  allUrls := JVal.arr [JVal.str "https://cdn/a.png",
                                       JVal.str "https://cdn/b.png"],
                  downloads := [JVal.str "https://cdn/a.png"] } ∧
    sora2CreateFromPayload loadsStub
        (JVal.obj [("data", JVal.obj [("resultUrls",
          JVal.arr [JVal.str "https://cdn/a.png", JVal.str "https://cdn/b.png"])])]) =
      Except.ok { url := JVal.str "https://cdn/a.png",
                  downloads := [JVal.str "https://cdn/a.png"] } :=
  facades_download_first_url_only loadsStub (JVal.str "https://cdn/a.png")
    (JVal.str "https://cdn/b.png") [] rfl

/-- Claim C3: for each of the three wait loops with `max_wait_time = mw`, a
`TimeoutError` is raised only at a clock reading strictly above `mw` (never
before), it is raised once the clock passes `mw` with no terminal state
observed, and its message carries the task id. -/
theorem wait_timeout_boundary :
    ∀ (tid : String) (hw : Bool) (mw : Nat) (loads : String → Option JVal),
      (∀ (trace : List IterObs) (pa e : Nat) (msg : String),
        kieWaitAux tid hw mw loads pa trace = WaitOutcome.timeout e msg →
        mw < e ∧ msg = kieTimeoutMsg tid mw) ∧
      (∀ trace : List IterObs,
        (∀ obs ∈ trace, obs.reqs = [] ∧ obs.query = Except.error ()) →
        (∃ obs ∈ trace, mw < obs.elapsed) →
        ∃ e, kieWaitForTask tid hw mw loads trace =
          WaitOutcome.timeout e (kieTimeoutMsg tid mw) ∧ mw < e) ∧
      (∀ (trace : List IterObs) (e : Nat) (msg : String),
        sora2WaitForVideo tid hw mw loads trace = WaitOutcome.timeout e msg →
        mw < e ∧ msg = sora2TimeoutMsg tid mw) ∧
      (∀ trace : List IterObs,
        (∀ obs ∈ trace, obs.reqs = [] ∧ obs.query = Except.error ()) →
        (∃ obs ∈ trace, mw < obs.elapsed) →
        ∃ e, sora2WaitForVideo tid hw mw loads trace =
          WaitOutcome.timeout e (sora2TimeoutMsg tid mw) ∧ mw < e) ∧
      (∀ (trace : List VeoIterObs) (e : Nat) (msg : String),
        veo3WaitForVideo tid hw mw loads trace = WaitOutcome.timeout e msg →
        mw < e ∧ msg = veo3TimeoutMsg tid e) ∧
      (∀ trace : List VeoIterObs,
        (∀ obs ∈ trace, obs.fetch = VeoFetch.fetchError ∧ obs.query = none) →
        (∃ obs ∈ trace, mw < obs.elapsed) →
        ∃ e, veo3WaitForVideo tid hw mw loads trace =
          WaitOutcome.timeout e (veo3TimeoutMsg tid e) ∧ mw < e) ∧
      (∃ pre post, kieTimeoutMsg tid mw = pre ++ (tid ++ post)) ∧
      (∃ pre post, sora2TimeoutMsg tid mw = pre ++ (tid ++ post)) ∧
      (∀ e : Nat, ∃ pre, veo3TimeoutMsg tid e = pre ++ tid) := by
  intro tid hw mw loads
  refine ⟨?_, ?_, ?_, ?_, ?_, ?_, ?_, ?_, ?_⟩
  · exact fun trace pa e msg h => kieWaitAux_timeout_gt tid hw mw loads trace pa e msg h
  · exact fun trace hall hex => kieWaitAux_times_out tid hw mw loads trace 0 hall hex
  · exact fun trace e msg h => sora2WaitAux_timeout_gt tid hw mw loads trace e msg h
  · exact fun trace hall hex => sora2WaitAux_times_out tid hw mw loads trace hall hex
  · exact fun trace e msg h => veo3WaitRun_timeout_gt tid hw mw loads trace 0 0 e msg h
  · exact fun trace hall hex => veo3WaitRun_times_out tid hw mw loads trace 0 0 hall hex
  · exact ⟨"Task ", " timed out after " ++ (toString mw ++ "s"), rfl⟩
  · exact ⟨"Task ", " timed out after " ++ (toString mw ++ "s"), rfl⟩
  · exact fun e => ⟨veo3TimeoutPre e, rfl⟩

theorem wait_timeout_boundary_witness :
    (∃ e, kieWaitForTask "t3" true 600 loadsStub
        [⟨0, [], Except.error ()⟩, ⟨601, [], Except.error ()⟩] =
      WaitOutcome.timeout e (kieTimeoutMsg "t3" 600) ∧ 600 < e) ∧
    (∃ e, sora2WaitForVideo "t3" true 300 loadsStub
        [⟨301, [], Except.error ()⟩] =
      WaitOutcome.timeout e (sora2TimeoutMsg "t3" 300) ∧ 300 < e) ∧
    (∃ e, veo3WaitForVideo "t3" true 1800 loadsStub
        [⟨0, VeoFetch.fetchError, none⟩, ⟨1801, VeoFetch.fetchError, none⟩] =
      WaitOutcome.timeout e (veo3TimeoutMsg "t3" e) ∧ 1800 < e) := by
  refine ⟨?_, ?_, ?_⟩
  · refine (wait_timeout_boundary "t3" true 600 loadsStub).2.1 _ ?_ ?_
    · intro obs h
      rcases List.mem_cons.mp h with rfl | h2
      · exact ⟨rfl, rfl⟩
      rcases List.mem_cons.mp h2 with rfl | h3
      · exact ⟨rfl, rfl⟩
      cases h3
    · exact ⟨⟨601, [], Except.error ()⟩, by simp, by decide⟩
  · refine (wait_timeout_boundary "t3" true 300 loadsStub).2.2.2.1 _ ?_ ?_
    · intro obs h
      rcases List.mem_cons.mp h with rfl | h2
      · exact ⟨rfl, rfl⟩
      cases h2
    · exact ⟨⟨301, [], Except.error ()⟩, by simp, by decide⟩
  · refine (wait_timeout_boundary "t3" true 1800 loadsStub).2.2.2.2.2.1 _ ?_ ?_
    · intro obs h
      rcases List.mem_cons.mp h with rfl | h2
      · exact ⟨rfl, rfl⟩
      rcases List.mem_cons.mp h2 with rfl | h3
      · exact ⟨rfl, rfl⟩
      cases h3
    · exact ⟨⟨1801, VeoFetch.fetchError, none⟩, by simp, by decide⟩
